import Mathlib

/-!
Shallow embedding of the clhaskell-cdk CDK application:
the entry point (bin script), `DnsStack` and `StaticWebsiteStack`.

JavaScript string values that may be `undefined` are modelled as
`Option String`; JS truthiness of such a value is `truthy`, and the JS
`||` operator on them is `jsOr`.  Deploy-time CloudFormation tokens
(hosted-zone id, role ARN, distribution id, ...) are modelled by the
inductive `Token`, indexed by the id of the stack that produced them.
The thrown `Error` of the validation loop is modelled by `Except String`.
-/

/-- Values available via `app.node.tryGetContext` (CDK context). -/
structure ContextValues where
  dnsAccount : Option String
  betaAccount : Option String
  gammaAccount : Option String
  prodAccount : Option String
  domainName : Option String
  region : Option String
deriving Repr, DecidableEq

/-- The environment variables the entry point may consult (`process.env`).
The `REGION` slot models an environment variable carrying a region: the
environment may well contain one, whether or not the code reads it. -/
structure EnvVars where
  DNS_ACCOUNT_ID : Option String
  BETA_ACCOUNT_ID : Option String
  GAMMA_ACCOUNT_ID : Option String
  PROD_ACCOUNT_ID : Option String
  DOMAIN_NAME : Option String
  REGION : Option String
deriving Repr, DecidableEq

/-- JS truthiness of a possibly-undefined string: `undefined` and `""` are
falsy, every other string is truthy. -/
def truthy : Option String → Bool
  | none => false
  | some s => !(s == "")

/-- JS `a || b` on possibly-undefined strings. -/
def jsOr (a b : Option String) : Option String :=
  if truthy a then a else b

/-- The resolved configuration record built at the top of the entry point. -/
structure Config where
  dnsAccount : Option String
  betaAccount : Option String
  gammaAccount : Option String
  prodAccount : Option String
  domainName : Option String
  region : Option String
deriving Repr, DecidableEq

/-- The `config` object of the entry point:
each account id and the domain name are
`tryGetContext(field) || process.env.FIELD_VAR`,
and the region is `tryGetContext("region") || "us-east-1"`
(no environment variable is consulted for the region). -/
def config (ctx : ContextValues) (env : EnvVars) : Config :=
  { dnsAccount := jsOr ctx.dnsAccount env.DNS_ACCOUNT_ID
  , betaAccount := jsOr ctx.betaAccount env.BETA_ACCOUNT_ID
  , gammaAccount := jsOr ctx.gammaAccount env.GAMMA_ACCOUNT_ID
  , prodAccount := jsOr ctx.prodAccount env.PROD_ACCOUNT_ID
  , domainName := jsOr ctx.domainName env.DOMAIN_NAME
  , region := jsOr ctx.region (some "us-east-1") }

/-- Dynamic field access `config[field]` for the field names used by the
validation loop. -/
def Config.get (c : Config) : String → Option String
  | "dnsAccount" => c.dnsAccount
  | "betaAccount" => c.betaAccount
  | "gammaAccount" => c.gammaAccount
  | "prodAccount" => c.prodAccount
  | "domainName" => c.domainName
  | "region" => c.region
  | _ => none

/-- Context lookup by field name (`tryGetContext(field)`). -/
def ctxField (ctx : ContextValues) : String → Option String
  | "dnsAccount" => ctx.dnsAccount
  | "betaAccount" => ctx.betaAccount
  | "gammaAccount" => ctx.gammaAccount
  | "prodAccount" => ctx.prodAccount
  | "domainName" => ctx.domainName
  | "region" => ctx.region
  | _ => none

/-- The environment variable corresponding to each required field. -/
def envFieldFor (env : EnvVars) : String → Option String
  | "dnsAccount" => env.DNS_ACCOUNT_ID
  | "betaAccount" => env.BETA_ACCOUNT_ID
  | "gammaAccount" => env.GAMMA_ACCOUNT_ID
  | "prodAccount" => env.PROD_ACCOUNT_ID
  | "domainName" => env.DOMAIN_NAME
  | _ => none

/-- The `requiredFields` array of the entry point, in source order. -/
def requiredFields : List String :=
  ["dnsAccount", "betaAccount", "gammaAccount", "prodAccount", "domainName"]

/-- The message of the `Error` thrown for a missing field. -/
def errorMessage (field : String) : String :=
  "Missing required configuration: " ++ field ++ ". " ++
    "Set via --context " ++ field ++ "=value or environment variable " ++
    field.toUpper

/-- The validation `for` loop over a list of field names: the first field
whose value is falsy aborts the program with its error message. -/
def validateFields : List String → Config → Except String Unit
  | [], _ => .ok ()
  | f :: rest, c =>
    if truthy (c.get f) then validateFields rest c
    else .error (errorMessage f)

/-- Validation of the resolved configuration against `requiredFields`. -/
def validateConfig (c : Config) : Except String Unit :=
  validateFields requiredFields c

/-- Deploy-time CloudFormation tokens, indexed by producing stack id. -/
inductive Token where
  | lit (s : String)
  | hostedZoneIdOf (stackId : String)
  | hostedZoneArnOf (stackId : String)
  | nameServersOf (stackId : String)
  | roleArnOf (stackId : String)
  | bucketNameOf (stackId : String)
  | distributionIdOf (stackId : String)
  | distributionDomainNameOf (stackId : String)
  | fnJoin (sep : String) (t : Token)
deriving Repr, DecidableEq

/-- CDK removal policies used in this app. -/
inductive RemovalPolicy where
  | destroy
  | retain
  | retainOnUpdateOrDelete
deriving Repr, DecidableEq

/-- IAM principals used in this app (`AccountPrincipal`). -/
inductive Principal where
  | account (accountId : String)
deriving Repr, DecidableEq

/-- IAM policy statement effect. -/
inductive Effect where
  | allow
  | deny
deriving Repr, DecidableEq

/-- An IAM policy statement as constructed in `DnsStack`. -/
structure PolicyStatement where
  effect : Effect
  actions : List String
  resources : List Token
deriving Repr, DecidableEq

/-- The IAM role of `DnsStack` (`CrossAccountDnsRole`). -/
structure IamRole where
  roleName : String
  assumedBy : List Principal
  description : String
  policyStatements : List PolicyStatement
  roleArn : Token
deriving Repr, DecidableEq

/-- The Route53 public hosted zone of `DnsStack`. -/
structure PublicHostedZone where
  zoneName : String
  removalPolicy : Option RemovalPolicy
  hostedZoneId : Token
  hostedZoneArn : Token
  hostedZoneNameServers : Token
deriving Repr, DecidableEq

/-- A stack environment (`env: \x7b account, region \x7d`). -/
structure StackEnv where
  account : Option String
  region : Option String
deriving Repr, DecidableEq

/-- A `CfnOutput` declaration. -/
structure CfnOutput where
  id : String
  value : Token
  description : String
  exportName : Option String
deriving Repr, DecidableEq

/-- The kinds of resource constructs instantiated (`new ...`) by the app. -/
inductive ResourceKind where
  | publicHostedZone
  | iamRole
  | s3Bucket
  | certificate
  | originAccessIdentity
  | cfDistribution
  | aRecord
  | bucketDeployment
deriving Repr, DecidableEq

/-- Props of `DnsStack`. -/
structure DnsStackProps where
  env : StackEnv
  domainName : String
  trustedAccountIds : List String
deriving Repr, DecidableEq

/-- A constructed `DnsStack`. -/
structure DnsStack where
  id : String
  props : DnsStackProps
  hostedZone : PublicHostedZone
  crossAccountRole : IamRole
  outputs : List CfnOutput
  resources : List ResourceKind
deriving Repr, DecidableEq

/-- Constructor body of `DnsStack`: public hosted zone with removal policy
RETAIN_ON_UPDATE_OR_DELETE, cross-account role assumable by a composite of
the trusted account principals with two Route53 policy statements, and four
outputs. -/
def mkDnsStack (id : String) (props : DnsStackProps) : DnsStack :=
  let hostedZone : PublicHostedZone :=
    { zoneName := props.domainName
    , removalPolicy := some .retainOnUpdateOrDelete
    , hostedZoneId := .hostedZoneIdOf id
    , hostedZoneArn := .hostedZoneArnOf id
    , hostedZoneNameServers := .nameServersOf id }
  let crossAccountRole : IamRole :=
    { roleName := "CrossAccountDnsManagementRole"
    , assumedBy := props.trustedAccountIds.map Principal.account
    , description := "Role allowing cross-account DNS record management"
    , policyStatements :=
        [ { effect := .allow
          , actions :=
              [ "route53:ChangeResourceRecordSets"
              , "route53:GetChange"
              , "route53:ListResourceRecordSets" ]
          , resources :=
              [ .hostedZoneArnOf id, .lit "arn:aws:route53:::change/*" ] }
        , { effect := .allow
          , actions := [ "route53:GetHostedZone", "route53:ListHostedZones" ]
          , resources := [ .lit "*" ] } ]
    , roleArn := .roleArnOf id }
  { id := id
  , props := props
  , hostedZone := hostedZone
  , crossAccountRole := crossAccountRole
  , outputs :=
      [ { id := "HostedZoneId"
        , value := hostedZone.hostedZoneId
        , description := "Hosted Zone ID"
        , exportName := some (id ++ "-HostedZoneId") }
      , { id := "HostedZoneName"
        , value := .lit hostedZone.zoneName
        , description := "Hosted Zone Name"
        , exportName := some (id ++ "-HostedZoneName") }
      , { id := "CrossAccountRoleArn"
        , value := crossAccountRole.roleArn
        , description := "ARN of the cross-account DNS management role"
        , exportName := some (id ++ "-CrossAccountRoleArn") }
      , { id := "NameServers"
        , value := .fnJoin ", " hostedZone.hostedZoneNameServers
        , description := "Name servers for the hosted zone"
        , exportName := none } ]
  , resources := [ .publicHostedZone, .iamRole ] }

/-- Block-public-access settings used for the site bucket. -/
inductive BlockPublicAccess where
  | blockAll
deriving Repr, DecidableEq

/-- The S3 bucket of `StaticWebsiteStack`. -/
structure Bucket where
  bucketName : String
  websiteIndexDocument : String
  publicReadAccess : Bool
  blockPublicAccess : BlockPublicAccess
  removalPolicy : RemovalPolicy
  autoDeleteObjects : Bool
  bucketNameToken : Token
deriving Repr, DecidableEq

/-- A CloudFront origin access identity. -/
structure OriginAccessIdentity where
  comment : String
deriving Repr, DecidableEq

/-- The ACM certificate of `StaticWebsiteStack`, DNS-validated against the
imported hosted zone. -/
structure Certificate where
  domainName : String
  validationZoneId : Token
  validationZoneName : String
deriving Repr, DecidableEq

/-- Viewer protocol policies of a CloudFront behavior. -/
inductive ViewerProtocolPolicy where
  | redirectToHttps
  | allowAll
  | httpsOnly
deriving Repr, DecidableEq

/-- Cache policies used in this app. -/
inductive CachePolicy where
  | cachingOptimized
deriving Repr, DecidableEq

/-- The default behavior of the CloudFront distribution: an S3 origin on the
site bucket through the origin access identity. -/
structure DefaultBehavior where
  originBucket : Token
  originAccessIdentity : Option OriginAccessIdentity
  viewerProtocolPolicy : ViewerProtocolPolicy
  cachePolicy : CachePolicy
deriving Repr, DecidableEq

/-- A custom error response of the distribution. -/
structure ErrorResponse where
  httpStatus : Nat
  responseHttpStatus : Nat
  responsePagePath : String
deriving Repr, DecidableEq

/-- The CloudFront distribution of `StaticWebsiteStack`. -/
structure Distribution where
  defaultBehavior : DefaultBehavior
  domainNames : List String
  certificate : Certificate
  defaultRootObject : String
  errorResponses : List ErrorResponse
  distributionId : Token
  distributionDomainName : Token
deriving Repr, DecidableEq

/-- The Route53 alias A record of `StaticWebsiteStack`. -/
structure ARecord where
  zoneId : Token
  zoneName : String
  recordName : String
  targetDistributionId : Token
deriving Repr, DecidableEq

/-- The `BucketDeployment` of `StaticWebsiteStack`. -/
structure BucketDeployment where
  sourceAssetPath : String
  destinationBucket : Token
  distributionId : Token
  distributionPaths : List String
deriving Repr, DecidableEq

/-- Props of `StaticWebsiteStack`. -/
structure StaticWebsiteStackProps where
  env : StackEnv
  domainName : String
  hostedZoneId : Token
  hostedZoneName : String
  crossAccountRoleArn : Token
  stageName : String
deriving Repr, DecidableEq

/-- A constructed `StaticWebsiteStack`.  `bucketReadGrants` records the
grantees that were given read access to the site bucket (`grantRead`). -/
structure StaticWebsiteStack where
  id : String
  props : StaticWebsiteStackProps
  bucket : Bucket
  certificate : Certificate
  oai : OriginAccessIdentity
  bucketReadGrants : List OriginAccessIdentity
  distribution : Distribution
  aliasRecord : ARecord
  deployment : BucketDeployment
  outputs : List CfnOutput
  resources : List ResourceKind
deriving Repr, DecidableEq

/-- Constructor body of `StaticWebsiteStack`, declaration by declaration:
bucket, imported hosted zone, certificate, origin access identity,
`grantRead` to it, distribution, alias record, bucket deployment, and four
outputs. -/
def mkStaticWebsiteStack (id : String) (props : StaticWebsiteStackProps) :
    StaticWebsiteStack :=
  let bucket : Bucket :=
    { bucketName :=
        props.stageName ++ "-website-" ++ props.env.account.getD ""
    , websiteIndexDocument := "index.html"
    , publicReadAccess := false
    , blockPublicAccess := .blockAll
    , removalPolicy := .destroy
    , autoDeleteObjects := true
    , bucketNameToken := .bucketNameOf id }
  let certificate : Certificate :=
    { domainName := props.domainName
    , validationZoneId := props.hostedZoneId
    , validationZoneName := props.hostedZoneName }
  let oai : OriginAccessIdentity :=
    { comment := "OAI for " ++ props.domainName }
  let distribution : Distribution :=
    { defaultBehavior :=
        { originBucket := .bucketNameOf id
        , originAccessIdentity := some oai
        , viewerProtocolPolicy := .redirectToHttps
        , cachePolicy := .cachingOptimized }
    , domainNames := [props.domainName]
    , certificate := certificate
    , defaultRootObject := "index.html"
    , errorResponses :=
        [ { httpStatus := 404
          , responseHttpStatus := 404
          , responsePagePath := "/error.html" }
        , { httpStatus := 403
          , responseHttpStatus := 403
          , responsePagePath := "/error.html" } ]
    , distributionId := .distributionIdOf id
    , distributionDomainName := .distributionDomainNameOf id }
  { id := id
  , props := props
  , bucket := bucket
  , certificate := certificate
  , oai := oai
  , bucketReadGrants := [oai]
  , distribution := distribution
  , aliasRecord :=
      { zoneId := props.hostedZoneId
      , zoneName := props.hostedZoneName
      , recordName := props.domainName
      , targetDistributionId := distribution.distributionId }
  , deployment :=
      { sourceAssetPath := "../../../clhaskellelectric.com/dist"
      , destinationBucket := .bucketNameOf id
      , distributionId := distribution.distributionId
      , distributionPaths := ["/*"] }
  , outputs :=
      [ { id := "BucketName"
        , value := bucket.bucketNameToken
        , description := "S3 Bucket Name"
        , exportName := none }
      , { id := "DistributionId"
        , value := distribution.distributionId
        , description := "CloudFront Distribution ID"
        , exportName := none }
      , { id := "DistributionDomainName"
        , value := distribution.distributionDomainName
        , description := "CloudFront Distribution Domain Name"
        , exportName := none }
      , { id := "WebsiteUrl"
        , value := .lit ("https://" ++ props.domainName)
        , description := "Website URL"
        , exportName := none } ]
  , resources :=
      [ .s3Bucket, .certificate, .originAccessIdentity, .cfDistribution
      , .aRecord, .bucketDeployment ] }

/-- The synthesized app: the four stacks and the explicit
`addDependency` edges (dependent stack id, dependency stack id). -/
structure App where
  dnsStack : DnsStack
  betaStack : StaticWebsiteStack
  gammaStack : StaticWebsiteStack
  prodStack : StaticWebsiteStack
  dependencies : List (String × String)
deriving Repr, DecidableEq

/-- Stack construction and wiring of the entry point, run only after the
validation loop passed (so each required field is truthy and `getD ""`
never applies its default). -/
def buildApp (c : Config) : App :=
  let domainName := c.domainName.getD ""
  let dnsStack := mkDnsStack "DnsStack"
    { env := { account := c.dnsAccount, region := c.region }
    , domainName := domainName
    , trustedAccountIds :=
        [ c.betaAccount.getD "", c.gammaAccount.getD ""
        , c.prodAccount.getD "" ] }
  let betaStack := mkStaticWebsiteStack "BetaStaticWebsiteStack"
    { env := { account := c.betaAccount, region := c.region }
    , domainName := "beta." ++ domainName
    , hostedZoneId := dnsStack.hostedZone.hostedZoneId
    , hostedZoneName := domainName
    , crossAccountRoleArn := dnsStack.crossAccountRole.roleArn
    , stageName := "beta" }
  let gammaStack := mkStaticWebsiteStack "GammaStaticWebsiteStack"
    { env := { account := c.gammaAccount, region := c.region }
    , domainName := "gamma." ++ domainName
    , hostedZoneId := dnsStack.hostedZone.hostedZoneId
    , hostedZoneName := domainName
    , crossAccountRoleArn := dnsStack.crossAccountRole.roleArn
    , stageName := "gamma" }
  let prodStack := mkStaticWebsiteStack "ProdStaticWebsiteStack"
    { env := { account := c.prodAccount, region := c.region }
    , domainName := domainName
    , hostedZoneId := dnsStack.hostedZone.hostedZoneId
    , hostedZoneName := domainName
    , crossAccountRoleArn := dnsStack.crossAccountRole.roleArn
    , stageName := "prod" }
  { dnsStack := dnsStack
  , betaStack := betaStack
  , gammaStack := gammaStack
  , prodStack := prodStack
  , dependencies :=
      [ ("BetaStaticWebsiteStack", "DnsStack")
      , ("GammaStaticWebsiteStack", "DnsStack")
      , ("ProdStaticWebsiteStack", "DnsStack") ] }

/-- The whole entry point: resolve the configuration, run the validation
loop, and only if it passes construct the stacks and synthesize.  An
`Except.error` is a thrown `Error` before any stack is constructed and
before `app.synth()` runs. -/
def cdkMain (ctx : ContextValues) (env : EnvVars) : Except String App :=
  let c := config ctx env
  match validateConfig c with
  | .error e => .error e
  | .ok () => .ok (buildApp c)

/-- The resource kinds instantiated anywhere in the synthesized app. -/
def appResourceKinds (a : App) : List ResourceKind :=
  a.dnsStack.resources ++ a.betaStack.resources ++
    a.gammaStack.resources ++ a.prodStack.resources

/-- The resource kinds the spec lists: DNS hosted zone, cross-account IAM
role, S3 bucket, CDN distribution, TLS certificate, DNS alias record. -/
def specResourceKinds : List ResourceKind :=
  [ .publicHostedZone, .iamRole, .s3Bucket, .cfDistribution, .certificate
  , .aRecord ]

/-- Modelled from the spec: the spec says every configuration value,
the region included, is read from environment/context with context taking
precedence; under that reading the region falls back to an environment
region variable before the "us-east-1" default. -/
def regionSpec (ctx : ContextValues) (env : EnvVars) : Option String :=
  jsOr ctx.region (jsOr env.REGION (some "us-east-1"))

/-- The value of the output with the given id, when the stack has one. -/
def outputValue (outs : List CfnOutput) (outId : String) : Option Token :=
  (outs.find? (fun o => o.id == outId)).map CfnOutput.value

/-- A context with no values at all. -/
def ctxEmpty : ContextValues :=
  { dnsAccount := none, betaAccount := none, gammaAccount := none
  , prodAccount := none, domainName := none, region := none }

/-- An environment with no variables set. -/
def envEmpty : EnvVars :=
  { DNS_ACCOUNT_ID := none, BETA_ACCOUNT_ID := none
  , GAMMA_ACCOUNT_ID := none, PROD_ACCOUNT_ID := none
  , DOMAIN_NAME := none, REGION := none }

/-- A fully populated sample context. -/
def ctxSample : ContextValues :=
  { dnsAccount := some "111111111111", betaAccount := some "222222222222"
  , gammaAccount := some "333333333333", prodAccount := some "444444444444"
  , domainName := some "example.com", region := some "us-east-1" }

/-- The environment with only a region variable set. -/
def envRegionOnly : EnvVars :=
  { DNS_ACCOUNT_ID := none, BETA_ACCOUNT_ID := none
  , GAMMA_ACCOUNT_ID := none, PROD_ACCOUNT_ID := none
  , DOMAIN_NAME := none, REGION := some "eu-west-1" }

/-- The validation loop reports the first field of the list whose value is
falsy, and succeeds when there is none. -/
theorem validateFields_eq_find (fs : List String) (c : Config) :
    validateFields fs c =
      match fs.find? (fun f => !truthy (c.get f)) with
      | some g => Except.error (errorMessage g)
      | none => Except.ok () := by
  induction fs with
  | nil => rfl
  | cons f rest ih =>
    by_cases h : truthy (c.get f)
    · simp [validateFields, h, List.find?_cons, ih]
    · simp [validateFields, h, List.find?_cons]

/-- Resolution of a required field is the JS-or of its context value and
its environment variable. -/
theorem config_get_required (ctx : ContextValues) (env : EnvVars)
    (f : String) (hf : f ∈ requiredFields) :
    (config ctx env).get f = jsOr (ctxField ctx f) (envFieldFor env f) := by
  simp only [requiredFields, List.mem_cons, List.not_mem_nil, or_false] at hf
  rcases hf with h | h | h | h | h <;> subst h <;> rfl

/-- C1 counterexample: with every field absent, the field `domainName` is
absent in both context and environment, yet the thrown error is the one
naming `dnsAccount`, which is not the error naming `domainName`. -/
theorem missing_domainName_error_names_dnsAccount :
    truthy (ctxField ctxEmpty "domainName") = false ∧
    truthy (envFieldFor envEmpty "domainName") = false ∧
    cdkMain ctxEmpty envEmpty = Except.error (errorMessage "dnsAccount") ∧
    errorMessage "dnsAccount" ≠ errorMessage "domainName" := by
  refine ⟨rfl, rfl, rfl, ?_⟩
  decide

/-- C1 (amended): when a required field is absent (falsy) in both the CDK
context and its environment variable, the program throws, before any stack
is constructed and before synthesis, the error naming the first required
field (in declaration order) whose resolved value is absent. -/
theorem missing_required_field_throws (ctx : ContextValues) (env : EnvVars)
    (f : String) (hf : f ∈ requiredFields)
    (hctx : truthy (ctxField ctx f) = false)
    (henv : truthy (envFieldFor env f) = false) :
    ∃ g, requiredFields.find?
        (fun x => !truthy ((config ctx env).get x)) = some g ∧
      cdkMain ctx env = Except.error (errorMessage g) := by
  have habs : truthy ((config ctx env).get f) = false := by
    rw [config_get_required ctx env f hf]
    simp [jsOr, hctx, henv]
  have hsome : (requiredFields.find?
      (fun x => !truthy ((config ctx env).get x))).isSome := by
    rw [List.find?_isSome]
    exact ⟨f, hf, by simp [habs]⟩
  obtain ⟨g, hg⟩ := Option.isSome_iff_exists.mp hsome
  refine ⟨g, hg, ?_⟩
  have hval : validateConfig (config ctx env) = .error (errorMessage g) := by
    rw [validateConfig, validateFields_eq_find, hg]
  simp [cdkMain, hval]

/-- Witness for the C1 theorem at the empty context and environment. -/
theorem missing_required_field_throws_witness :
    ∃ g, requiredFields.find?
        (fun x => !truthy ((config ctxEmpty envEmpty).get x)) = some g ∧
      cdkMain ctxEmpty envEmpty = Except.error (errorMessage g) :=
  missing_required_field_throws ctxEmpty envEmpty "dnsAccount"
    (by decide) rfl rfl

/-- C2: the validation loop succeeds exactly when every one of the five
required fields resolves to a truthy value, whatever its contents; it
throws if and only if some required field is absent. -/
theorem validation_ok_iff_all_present (c : Config) :
    validateConfig c = Except.ok () ↔
      (truthy c.dnsAccount = true ∧ truthy c.betaAccount = true ∧
       truthy c.gammaAccount = true ∧ truthy c.prodAccount = true ∧
       truthy c.domainName = true) := by
  by_cases h1 : truthy c.dnsAccount <;>
    by_cases h2 : truthy c.betaAccount <;>
      by_cases h3 : truthy c.gammaAccount <;>
        by_cases h4 : truthy c.prodAccount <;>
          by_cases h5 : truthy c.domainName <;>
            simp [validateConfig, requiredFields, validateFields, Config.get,
              h1, h2, h3, h4, h5]

/-- C3 counterexample: the app instantiates a CloudFront origin access
identity (and a bucket deployment), resource kinds absent from the spec
list, so the declared kinds are not exactly the listed ones. -/
theorem oai_declared_but_not_listed :
    ResourceKind.originAccessIdentity ∈
        appResourceKinds (buildApp (config ctxSample envEmpty)) ∧
    ResourceKind.originAccessIdentity ∉ specResourceKinds ∧
    ResourceKind.bucketDeployment ∈
        appResourceKinds (buildApp (config ctxSample envEmpty)) ∧
    ResourceKind.bucketDeployment ∉ specResourceKinds := by
  refine ⟨?_, by decide, ?_, by decide⟩ <;>
    simp [appResourceKinds, buildApp, mkDnsStack, mkStaticWebsiteStack]

/-- C3 (amended): for every configuration, the resource kinds the app
declares are exactly the ones the spec lists plus a CloudFront origin
access identity and an S3 bucket deployment. -/
theorem app_resource_kinds (c : Config) (k : ResourceKind) :
    k ∈ appResourceKinds (buildApp c) ↔
      (k ∈ specResourceKinds ∨ k = ResourceKind.originAccessIdentity ∨
        k = ResourceKind.bucketDeployment) := by
  cases k <;>
    simp [appResourceKinds, buildApp, mkDnsStack, mkStaticWebsiteStack,
      specResourceKinds]

/-- C4: every static-site stack receives the hosted zone id and the
cross-account role ARN produced by the DNS stack, and the app records an
explicit dependency from each static-site stack on the DNS stack. -/
theorem stack_wiring (c : Config) :
    (buildApp c).dnsStack.id = "DnsStack" ∧
    ((buildApp c).betaStack.props.hostedZoneId =
        (buildApp c).dnsStack.hostedZone.hostedZoneId ∧
      (buildApp c).betaStack.props.crossAccountRoleArn =
        (buildApp c).dnsStack.crossAccountRole.roleArn ∧
      (buildApp c).betaStack.id = "BetaStaticWebsiteStack") ∧
    ((buildApp c).gammaStack.props.hostedZoneId =
        (buildApp c).dnsStack.hostedZone.hostedZoneId ∧
      (buildApp c).gammaStack.props.crossAccountRoleArn =
        (buildApp c).dnsStack.crossAccountRole.roleArn ∧
      (buildApp c).gammaStack.id = "GammaStaticWebsiteStack") ∧
    ((buildApp c).prodStack.props.hostedZoneId =
        (buildApp c).dnsStack.hostedZone.hostedZoneId ∧
      (buildApp c).prodStack.props.crossAccountRoleArn =
        (buildApp c).dnsStack.crossAccountRole.roleArn ∧
      (buildApp c).prodStack.id = "ProdStaticWebsiteStack") ∧
    (buildApp c).dependencies =
      [ ("BetaStaticWebsiteStack", "DnsStack")
      , ("GammaStaticWebsiteStack", "DnsStack")
      , ("ProdStaticWebsiteStack", "DnsStack") ] :=
  ⟨rfl, ⟨rfl, rfl, rfl⟩, ⟨rfl, rfl, rfl⟩, ⟨rfl, rfl, rfl⟩, rfl⟩

/-- C5: the DNS stack publishes exactly the hosted zone id, the hosted
zone name, the cross-account role ARN and the name servers, and each
static-website stack publishes exactly the bucket name, the distribution
id, the distribution domain name and the website URL; the hosted-zone-id
and role-ARN outputs carry those very values. -/
theorem stack_outputs (c : Config) :
    ((buildApp c).dnsStack.outputs.map CfnOutput.id) =
      ["HostedZoneId", "HostedZoneName", "CrossAccountRoleArn",
        "NameServers"] ∧
    outputValue (buildApp c).dnsStack.outputs "HostedZoneId" =
      some (buildApp c).dnsStack.hostedZone.hostedZoneId ∧
    outputValue (buildApp c).dnsStack.outputs "CrossAccountRoleArn" =
      some (buildApp c).dnsStack.crossAccountRole.roleArn ∧
    ((buildApp c).betaStack.outputs.map CfnOutput.id) =
      ["BucketName", "DistributionId", "DistributionDomainName",
        "WebsiteUrl"] ∧
    ((buildApp c).gammaStack.outputs.map CfnOutput.id) =
      ["BucketName", "DistributionId", "DistributionDomainName",
        "WebsiteUrl"] ∧
    ((buildApp c).prodStack.outputs.map CfnOutput.id) =
      ["BucketName", "DistributionId", "DistributionDomainName",
        "WebsiteUrl"] :=
  ⟨rfl, rfl, rfl, rfl, rfl, rfl⟩

/-- C6: the cross-account role is assumable by exactly the trusted
accounts: its principals are the account principals of the beta, gamma and
prod accounts, and an account principal is among them iff the account is
in the trusted account list passed to the DNS stack. -/
theorem cross_account_role_principals (c : Config) (acct : String) :
    (buildApp c).dnsStack.crossAccountRole.assumedBy =
      [ Principal.account (c.betaAccount.getD "")
      , Principal.account (c.gammaAccount.getD "")
      , Principal.account (c.prodAccount.getD "") ] ∧
    (Principal.account acct ∈
        (buildApp c).dnsStack.crossAccountRole.assumedBy ↔
      acct ∈ (buildApp c).dnsStack.props.trustedAccountIds) := by
  refine ⟨rfl, ?_⟩
  simp [buildApp, mkDnsStack]

/-- C7 counterexample: with no context region and an environment region
variable set to eu-west-1, the code resolves the region to the default
us-east-1, while the spec reading (environment consulted before the
default) resolves it to eu-west-1. -/
theorem region_ignores_environment :
    (config ctxEmpty envRegionOnly).region = some "us-east-1" ∧
    regionSpec ctxEmpty envRegionOnly = some "eu-west-1" ∧
    (some "us-east-1" : Option String) ≠ some "eu-west-1" := by
  refine ⟨rfl, rfl, ?_⟩
  decide

/-- C7 (amended): each account id and the domain name resolve to the
context value when it is truthy and to the corresponding environment
variable otherwise; the region resolves to the context value when truthy
and to "us-east-1" otherwise, independently of the environment. -/
theorem config_resolution (ctx : ContextValues) (env : EnvVars) :
    (config ctx env).dnsAccount =
      (if truthy ctx.dnsAccount then ctx.dnsAccount
        else env.DNS_ACCOUNT_ID) ∧
    (config ctx env).betaAccount =
      (if truthy ctx.betaAccount then ctx.betaAccount
        else env.BETA_ACCOUNT_ID) ∧
    (config ctx env).gammaAccount =
      (if truthy ctx.gammaAccount then ctx.gammaAccount
        else env.GAMMA_ACCOUNT_ID) ∧
    (config ctx env).prodAccount =
      (if truthy ctx.prodAccount then ctx.prodAccount
        else env.PROD_ACCOUNT_ID) ∧
    (config ctx env).domainName =
      (if truthy ctx.domainName then ctx.domainName
        else env.DOMAIN_NAME) ∧
    (config ctx env).region =
      (if truthy ctx.region then ctx.region else some "us-east-1") ∧
    (∀ env2 : EnvVars, (config ctx env2).region = (config ctx env).region) :=
  ⟨rfl, rfl, rfl, rfl, rfl, rfl, fun _ => rfl⟩

/-- C8: in every static-website stack the site bucket has public read
access disabled and all public access blocked, the only read grant on the
bucket is to the stack's CloudFront origin access identity (which the
distribution's S3 origin uses), and the default behavior redirects
viewers to HTTPS. -/
theorem bucket_private_distribution_https (id : String)
    (props : StaticWebsiteStackProps) :
    (mkStaticWebsiteStack id props).bucket.publicReadAccess = false ∧
    (mkStaticWebsiteStack id props).bucket.blockPublicAccess =
      BlockPublicAccess.blockAll ∧
    (mkStaticWebsiteStack id props).bucketReadGrants =
      [(mkStaticWebsiteStack id props).oai] ∧
    DefaultBehavior.originAccessIdentity
        (mkStaticWebsiteStack id props).distribution.defaultBehavior =
      some (mkStaticWebsiteStack id props).oai ∧
    DefaultBehavior.viewerProtocolPolicy
        (mkStaticWebsiteStack id props).distribution.defaultBehavior =
      ViewerProtocolPolicy.redirectToHttps :=
  ⟨rfl, rfl, rfl, rfl, rfl⟩

/-- C9: the hosted zone carries removal policy retain-on-update-or-delete
while every site bucket carries removal policy destroy together with
automatic object deletion. -/
theorem removal_policies (c : Config) :
    (buildApp c).dnsStack.hostedZone.removalPolicy =
      some RemovalPolicy.retainOnUpdateOrDelete ∧
    (buildApp c).betaStack.bucket.removalPolicy = RemovalPolicy.destroy ∧
    (buildApp c).betaStack.bucket.autoDeleteObjects = true ∧
    (buildApp c).gammaStack.bucket.removalPolicy = RemovalPolicy.destroy ∧
    (buildApp c).gammaStack.bucket.autoDeleteObjects = true ∧
    (buildApp c).prodStack.bucket.removalPolicy = RemovalPolicy.destroy ∧
    (buildApp c).prodStack.bucket.autoDeleteObjects = true :=
  ⟨rfl, rfl, rfl, rfl, rfl, rfl, rfl⟩

/-- C10: the beta and gamma stacks serve the domain name prefixed with
"beta." and "gamma." while the prod stack serves the root domain, and in
each static-website stack the WebsiteUrl output is the literal "https://"
followed by that stack's domain name. -/
theorem stage_domains_and_urls (c : Config) :
    (buildApp c).betaStack.props.domainName =
      "beta." ++ c.domainName.getD "" ∧
    (buildApp c).gammaStack.props.domainName =
      "gamma." ++ c.domainName.getD "" ∧
    (buildApp c).prodStack.props.domainName = c.domainName.getD "" ∧
    outputValue (buildApp c).betaStack.outputs "WebsiteUrl" =
      some (Token.lit ("https://" ++
        (buildApp c).betaStack.props.domainName)) ∧
    outputValue (buildApp c).gammaStack.outputs "WebsiteUrl" =
      some (Token.lit ("https://" ++
        (buildApp c).gammaStack.props.domainName)) ∧
    outputValue (buildApp c).prodStack.outputs "WebsiteUrl" =
      some (Token.lit ("https://" ++
        (buildApp c).prodStack.props.domainName)) :=
  ⟨rfl, rfl, rfl, rfl, rfl, rfl⟩
